import Mathlib

/-!
Shallow embedding of the flightdeal repository (Python) in Lean 4.

Modules embedded:
  * `flight_data.py`  — `FlightData` and `FlightData.from_amadeus_offer`
  * `flight_search.py` — token cache, `_fetch_best_offer`, `search_cheapest_flight`
  * `notification_manager.py` — `send_email_alert`, `send_deal_alert`
  * `main.py` — `sync_missing_iata_codes`

Python `float` prices and clock times are modelled as rationals (`ℚ`);
optional / missing JSON fields as `Option`; raised exceptions as `Except`.
Python truthiness of optional strings (both `None` and `""` are falsy)
is modelled explicitly by `strTruthy` / `pyOrOpt` / `pyOrStr`.
-/

namespace FlightDeal

/-- Python truthiness of an optional string: `None` and `""` are falsy. -/
def strTruthy : Option String → Bool
  | none => false
  | some s => s ≠ ""

/-- Python `a or b` on two optional strings (`None`/`""` falsy). -/
def pyOrOpt (a b : Option String) : Option String :=
  if strTruthy a then a else b

/-- Python `a or b` where the right operand is a plain string. -/
def pyOrStr (a : Option String) (b : String) : String :=
  match a with
  | some s => if s = "" then b else s
  | none => b

/-- Python `s.strip()`: drop leading and trailing whitespace. -/
def pyStrip (s : String) : String :=
  ⟨((s.data.dropWhile Char.isWhitespace).reverse.dropWhile Char.isWhitespace).reverse⟩

/-- Python `s.upper()`: uppercase every character. -/
def pyUpper (s : String) : String :=
  ⟨s.data.map Char.toUpper⟩

/-- One endpoint of a segment: the JSON object under `"departure"` / `"arrival"`.
`at_` models the `"at"` timestamp key. -/
structure SegPoint where
  iataCode : Option String
  cityCode : Option String
  at_ : Option String
  deriving Repr, DecidableEq

/-- One flight segment: `{"departure": ..., "arrival": ...}`. -/
structure Segment where
  departure : SegPoint
  arrival : SegPoint
  deriving Repr, DecidableEq

/-- One itinerary: `{"segments": [...]}` (a missing key defaults to `[]`
via `outbound.get("segments", [])`). -/
structure Itinerary where
  segments : List Segment
  deriving Repr, DecidableEq

/-- The JSON object under `"price"`: `total` is the parsed numeric value of
`price["total"]`, `currency` the `"currency"` key. -/
structure PriceData where
  total : Option ℚ
  currency : Option String
  deriving Repr, DecidableEq

/-- A raw Amadeus offer, restricted to the keys `from_amadeus_offer` reads.
`itineraries` models `offer.get("itineraries", [])` (missing key ≡ `[]`);
`price` models the optional `"price"` object. -/
structure RawOffer where
  price : Option PriceData
  itineraries : List Itinerary
  deriving Repr, DecidableEq

/-- Exceptions that `FlightData.from_amadeus_offer` can raise:
`indexError` for `itineraries[0]` on an empty list, `valueError` for the
explicit `raise ValueError(...)` guard. -/
inductive OfferError where
  | indexError
  | valueError (msg : String)
  deriving Repr, DecidableEq

/-- The `FlightData` dataclass of `flight_data.py`. -/
structure FlightData where
  price : ℚ
  currency : String
  origin_city : String
  origin_airport : String
  destination_city : String
  destination_airport : String
  out_date : String
  return_date : String
  stops : Nat
  is_direct : Bool
  via_city : Option String
  deriving Repr, DecidableEq

/-- Python `s.split("T")[0]`: the part of `s` before the first `"T"`
(the whole of `s` when no `"T"` occurs, `""` for the empty string). -/
def splitDate (s : String) : String :=
  ⟨s.data.takeWhile (fun c => c ≠ 'T')⟩

/-- `FlightData.from_amadeus_offer` of `flight_data.py`, line for line:
empty `itineraries` raises `IndexError` at `itineraries[0]`; an outbound
itinerary with no segments raises the dedicated `ValueError`. -/
def FlightData.from_amadeus_offer (offer : RawOffer) : Except OfferError FlightData :=
  let price_data := offer.price.getD ⟨none, none⟩
  match offer.itineraries with
  | [] => .error .indexError
  | outbound :: restItins =>
    let inbound :=
      if (outbound :: restItins).length > 1 then
        (outbound :: restItins).getLast (List.cons_ne_nil _ _)
      else outbound
    match outbound.segments with
    | [] => .error (.valueError "Amadeus offer missing outbound segments.")
    | s0 :: restSegs =>
      let inbound_segments := inbound.segments
      let outbound_first := s0
      let outbound_last := (s0 :: restSegs).getLast (List.cons_ne_nil _ _)
      let inbound_last :=
        match inbound_segments with
        | [] => outbound_last
        | t :: ts => (t :: ts).getLast (List.cons_ne_nil _ _)
      let stops := max ((s0 :: restSegs).length - 1) 0
      let via_city : Option String :=
        if stops ≠ 0 then pyOrOpt s0.arrival.cityCode s0.arrival.iataCode
        else none
      let origin_departure := outbound_first.departure
      let destination_arrival := outbound_last.arrival
      let origin_airport := origin_departure.iataCode.getD ""
      let destination_airport := destination_arrival.iataCode.getD ""
      let origin_city := pyOrStr origin_departure.cityCode origin_airport
      let destination_city := pyOrStr destination_arrival.cityCode destination_airport
      let out_date := splitDate (origin_departure.at_.getD "")
      let return_date := splitDate (inbound_last.arrival.at_.getD "")
      .ok {
        price := price_data.total.getD 0
        currency := price_data.currency.getD ""
        origin_city := origin_city
        origin_airport := origin_airport
        destination_city := destination_city
        destination_airport := destination_airport
        out_date := out_date
        return_date := return_date
        stops := stops
        is_direct := (stops = 0)
        via_city := via_city
      }

/-! ### `flight_search.py` -/

/-- The bearer-token state held by `FlightSearch`: `_token` (initially `None`)
and `_token_expires_at` (a clock instant, initially `0.0`). -/
structure TokenState where
  token : Option String
  token_expires_at : ℚ
  deriving Repr, DecidableEq

/-- The guard of `_ensure_token`: the cached token is reused exactly when
`self._token and time.time() < self._token_expires_at`; a refresh happens
otherwise. (`None` and `""` tokens are falsy.) -/
def needsRefresh (st : TokenState) (now : ℚ) : Bool :=
  !(strTruthy st.token && decide (now < st.token_expires_at))

/-- The refresh branch of `_ensure_token`: store the fetched token and
`time.time() + expires_in - 10` as its expiry instant. -/
def storeToken (now : ℚ) (token : String) (expires_in : ℚ) : TokenState :=
  { token := some token, token_expires_at := now + expires_in - 10 }

/-- `_ensure_token`: keep the state when the guard passes, otherwise store
the token fetched by `_get_new_token` (passed in as `fetched`). -/
def ensure_token (st : TokenState) (now : ℚ) (fetched : String × ℚ) : TokenState :=
  if needsRefresh st now then storeToken now fetched.1 fetched.2 else st

/-- `FlightSearch.MAX_INDIRECT_OFFERS`. -/
def MAX_INDIRECT_OFFERS : Nat := 20

/-- The parameters of one `_request_offers` call that vary between the two
phases of `search_cheapest_flight`: the `nonStop` flag and the `max` cap. -/
structure OfferQuery where
  nonStop : Bool
  maxResults : Nat
  deriving Repr, DecidableEq

/-- Python `min(valid_flights, key=lambda flight: flight.price)` as a left
fold: the running best is replaced only on a strictly smaller key, so among
equal-price flights the earliest one wins. -/
def pyMin (best : FlightData) : List FlightData → FlightData
  | [] => best
  | g :: rest => pyMin (if g.price < best.price then g else best) rest

/-- `min` over a possibly-empty list of flights (`none` on `[]`). -/
def minByPrice : List FlightData → Option FlightData
  | [] => none
  | f :: fs => some (pyMin f fs)

/-- The accumulation loop of `_fetch_best_offer`: normalize each offer in
order (the first raised exception propagates), and keep those whose stop
count does not exceed `max_stops` (no filter when `max_stops` is `None`). -/
def collectValidFlights (max_stops : Option Nat) :
    List RawOffer → Except OfferError (List FlightData)
  | [] => .ok []
  | offer :: rest =>
    match FlightData.from_amadeus_offer offer with
    | .error e => .error e
    | .ok flight =>
      match collectValidFlights max_stops rest with
      | .error e => .error e
      | .ok tail =>
        match max_stops with
        | some m => if flight.stops > m then .ok tail else .ok (flight :: tail)
        | none => .ok (flight :: tail)

/-- `_fetch_best_offer`, given the list of offers the API returned for the
request: `None` on an empty response, else normalize-and-filter, `None`
when nothing survives, else the minimum-price survivor. -/
def fetchBestOffer (offers : List RawOffer) (max_stops : Option Nat) :
    Except OfferError (Option FlightData) :=
  if offers = [] then .ok none
  else
    match collectValidFlights max_stops offers with
    | .error e => .error e
    | .ok valid_flights =>
      if valid_flights = [] then .ok none
      else .ok (minByPrice valid_flights)

/-- `search_cheapest_flight`: phase one queries with `nonStop=true`,
`max=1` and no stop filter; a truthy result (any `FlightData` is truthy in
Python) is returned immediately; otherwise phase two queries with
`nonStop=false`, `max=MAX_INDIRECT_OFFERS` and `max_stops=2`. The external
API is the function `api` from the varying request parameters to the
offer list it returns. -/
def search_cheapest_flight (api : OfferQuery → List RawOffer) :
    Except OfferError (Option FlightData) :=
  match fetchBestOffer (api ⟨true, 1⟩) none with
  | .error e => .error e
  | .ok (some direct_offer) => .ok (some direct_offer)
  | .ok none => fetchBestOffer (api ⟨false, MAX_INDIRECT_OFFERS⟩) (some 2)

/-! ### `notification_manager.py` -/

/-- Fixed-point rendering of a rational with two decimals, the model of
Python `f"{x:.2f}"` (prices are nonnegative in this system). -/
def format2 (q : ℚ) : String :=
  let cents : ℤ := round (q * 100)
  let whole := cents / 100
  let frac := (cents % 100).natAbs
  toString whole ++ "." ++ (if frac < 10 then "0" ++ toString frac else toString frac)

/-- The alert body composed by `send_deal_alert`: route, price against
target, dates, and — only for an indirect flight — a trailing stop-count
clause with the via city when one is known (`None`/`""` via is omitted). -/
def composeDealBody (flight : FlightData) (threshold_price : ℚ) : String :=
  let base :=
    "Bon plan vol ✈️ " ++ flight.origin_city ++ "-" ++ flight.destination_city ++
    " à " ++ format2 flight.price ++ " " ++ flight.currency ++
    " (cible " ++ format2 threshold_price ++ "). " ++
    "Aller: " ++ flight.out_date ++ ", retour: " ++ flight.return_date ++ "."
  if flight.stops ≠ 0 then
    let via_info :=
      if strTruthy flight.via_city then " via " ++ flight.via_city.getD "" else ""
    base ++ " " ++ toString flight.stops ++ " escale(s)" ++ via_info ++ "."
  else base

/-- The email-side configuration of `NotificationManager`. -/
structure EmailConfig where
  email_sender : Option String
  email_password : Option String
  customer_emails : List String
  deriving Repr, DecidableEq

/-- `send_email_alert`: returns 0 without any SMTP traffic when the sender
credentials or the recipient list are missing; otherwise the SMTP session
outcome `smtp` either fails — wrapped into the distinct `NotificationError`
message (the `Except.error` case) — or succeeds for every recipient. -/
def send_email_alert (cfg : EmailConfig) (recipients : Option (List String))
    (smtp : Except String Unit) : Except String Nat :=
  if !(strTruthy cfg.email_sender && strTruthy cfg.email_password) then .ok 0
  else
    let source :=
      match recipients with
      | some (r :: rs) => r :: rs
      | _ => cfg.customer_emails
    let target_recipients := (source.map pyStrip).filter (fun s => s ≠ "")
    if target_recipients = [] then .ok 0
    else
      match smtp with
      | .error exc => .error ("Impossible d'envoyer l'e-mail: " ++ exc)
      | .ok _ => .ok target_recipients.length

/-- The `NotificationResult` dataclass. -/
structure NotificationResult where
  sms_sid : Option String
  emails_sent : Nat
  deriving Repr, DecidableEq

/-- The two error kinds escaping `send_deal_alert`: a plain transport error
raised inside `send_sms` (`requests.raise_for_status`), or the
`NotificationError` raised by `send_email_alert`. -/
inductive DealError where
  | smsTransport (msg : String)
  | mailTransport (msg : String)
  deriving Repr, DecidableEq

/-- What one `send_deal_alert` call did: which channels were reached and
what it returned or raised. -/
structure DealTrace where
  smsAttempted : Bool
  emailAttempted : Bool
  outcome : Except DealError NotificationResult
  deriving Repr

/-- `send_deal_alert`: composes the message, then runs
`sms_sid = self.send_sms(body)` and afterwards
`emails_sent = self.send_email_alert(subject, body)`. An exception raised
by `send_sms` propagates before `send_email_alert` is ever entered. The
outcomes of the two external calls are the inputs `smsResult` (the Twilio
response `sid`, or a transport error) and `smtpResult`. -/
def send_deal_alert (cfg : EmailConfig) (_flight : FlightData)
    (_threshold_price : ℚ) (smsResult : Except String (Option String))
    (smtpResult : Except String Unit) : DealTrace :=
  match smsResult with
  | .error e =>
    { smsAttempted := true, emailAttempted := false
      outcome := .error (.smsTransport e) }
  | .ok sid =>
    match send_email_alert cfg none smtpResult with
    | .error e =>
      { smsAttempted := true, emailAttempted := true
        outcome := .error (.mailTransport e) }
    | .ok n =>
      { smsAttempted := true, emailAttempted := true
        outcome := .ok { sms_sid := sid, emails_sent := n } }

/-! ### `main.py` -/

/-- One spreadsheet row as read by `sync_missing_iata_codes`: the keys it
accesses, each possibly missing. -/
structure SheetRow where
  id : Option Int
  city : Option String
  destination : Option String
  iataCode : Option String
  iata_code : Option String
  deriving Repr, DecidableEq

/-- Python truthiness of `row.get("id")` modelled over an optional integer:
`None` and `0` are falsy. -/
def intTruthy : Option Int → Bool
  | none => false
  | some n => n ≠ 0

/-- One iteration of the `sync_missing_iata_codes` loop, yielding this
row's contribution to `updated`. A present IATA code, a missing city or id,
a lookup exception, an empty lookup result, or an update exception all end
the iteration with `continue` (contribution 0); only a persisted update
counts 1. `lookup` is `searcher.find_city_code` and `update` is
`manager.update_row`, each free to fail with a transport error. -/
def processRow (lookup : String → Except Unit (Option String))
    (update : Int → String → Except Unit Unit) (row : SheetRow) : Nat :=
  let iata := pyStrip ((pyOrOpt row.iataCode row.iata_code).getD "")
  if iata ≠ "" then 0
  else
    let city := pyStrip ((pyOrOpt row.city row.destination).getD "")
    if city = "" || !intTruthy row.id then 0
    else
      match lookup city with
      | .error _ => 0
      | .ok city_code =>
        if !strTruthy city_code then 0
        else
          match update (row.id.getD 0) (pyUpper (city_code.getD "")) with
          | .error _ => 0
          | .ok _ => 1

/-- `sync_missing_iata_codes`: fold the per-row iteration over the rows in
order; every exception is caught inside the iteration, so the loop always
reaches the end and returns the number of rows it persisted. -/
def sync_missing_iata_codes (lookup : String → Except Unit (Option String))
    (update : Int → String → Except Unit Unit) : List SheetRow → Nat
  | [] => 0
  | row :: rest =>
    processRow lookup update row + sync_missing_iata_codes lookup update rest

/-! ### Helper lemmas -/

/-- `pyMin` is the `argAux` fold of `List.argmin` started at `some best`. -/
theorem foldl_argAux_pyMin (l : List FlightData) : ∀ best : FlightData,
    List.foldl (List.argAux fun b c => b.price < c.price) (some best) l
      = some (pyMin best l) := by
  induction l with
  | nil => intro best; rfl
  | cons g rest ih =>
    intro best
    rw [List.foldl_cons, pyMin]
    have h : List.argAux (fun b c : FlightData => b.price < c.price) (some best) g
        = some (if g.price < best.price then g else best) := by
      by_cases hc : g.price < best.price
      · simp [List.argAux, hc]
      · simp [List.argAux, hc]
    rw [h, ih]

/-- Python `min(..., key=price)` coincides with Mathlib's `List.argmin`
(first minimum on ties). -/
theorem minByPrice_eq_argmin (l : List FlightData) :
    minByPrice l = l.argmin FlightData.price := by
  cases l with
  | nil => rfl
  | cons f fs =>
    rw [minByPrice, List.argmin, List.foldl_cons]
    have h : List.argAux (fun b c : FlightData => FlightData.price b < FlightData.price c)
        none f = some f := rfl
    rw [h, foldl_argAux_pyMin]

/-- When every offer normalizes, the accumulation loop of `_fetch_best_offer`
with a stop ceiling is exactly a filter on the normalized flights. -/
theorem collectValid_eq_filter (m : Nat) : ∀ (offers : List RawOffer)
    (flights : List FlightData),
    offers.mapM FlightData.from_amadeus_offer = Except.ok flights →
    collectValidFlights (some m) offers
      = .ok (flights.filter (fun f => f.stops ≤ m)) := by
  intro offers
  induction offers with
  | nil =>
    intro flights h
    simp only [List.mapM_nil, pure, Except.pure] at h
    cases h
    rfl
  | cons o rest ih =>
    intro flights h
    rw [List.mapM_cons] at h
    cases hfo : FlightData.from_amadeus_offer o with
    | error e => rw [hfo] at h; simp [Bind.bind, Except.bind] at h
    | ok fl =>
      rw [hfo] at h
      cases hrest : rest.mapM FlightData.from_amadeus_offer with
      | error e =>
        rw [hrest] at h
        simp [Bind.bind, Except.bind, pure, Except.pure] at h
      | ok fs =>
        rw [hrest] at h
        simp only [Bind.bind, Except.bind, pure, Except.pure, Except.ok.injEq] at h
        subst h
        rw [collectValidFlights, hfo, ih fs hrest]
        by_cases hstop : fl.stops > m
        · simp [hstop, List.filter_cons, Nat.not_le_of_lt hstop]
        · simp [hstop, List.filter_cons, Nat.le_of_not_lt hstop]

/-! ### Claim theorems -/

/-- C9: normalizing an offer whose `"itineraries"` list is empty fails with
the `IndexError` of `itineraries[0]`, not with the dedicated
malformed-payload `ValueError`: the no-segments guard only covers an
outbound itinerary that exists but has an empty segment list. -/
theorem empty_itineraries_index_error (p : Option PriceData) :
    FlightData.from_amadeus_offer ⟨p, []⟩ = .error .indexError := rfl

/-- C4: normalizing an offer whose outbound itinerary exists but has zero
segments fails with the dedicated malformed-payload `ValueError`, which
propagates to the caller; no defaulted `FlightData` record is produced. -/
theorem empty_segments_value_error (p : Option PriceData) (rest : List Itinerary) :
    FlightData.from_amadeus_offer ⟨p, ⟨[]⟩ :: rest⟩
      = .error (.valueError "Amadeus offer missing outbound segments.") := rfl

/-- C3: for any raw offer whose outbound itinerary has `n ≥ 1` segments,
normalization succeeds with `stops = n - 1`, `is_direct ↔ stops = 0`, and
`via_city` equal to the first outbound segment's arrival city/airport code
exactly when `stops > 0`; the closed conjunct checks the spec's instance
(one itinerary, two segments ⇒ `stops = 1`, `is_direct = false`,
`via_city = some "LHR"`, the first segment's arrival code). -/
theorem normalization_stops_direct_via :
    (∀ (p : Option PriceData) (rest : List Itinerary) (s0 : Segment)
      (restSegs : List Segment),
      ∃ f, FlightData.from_amadeus_offer ⟨p, ⟨s0 :: restSegs⟩ :: rest⟩ = .ok f ∧
        f.stops = (s0 :: restSegs).length - 1 ∧
        f.is_direct = decide (f.stops = 0) ∧
        f.via_city = (if (s0 :: restSegs).length - 1 ≠ 0
          then pyOrOpt s0.arrival.cityCode s0.arrival.iataCode else none)) ∧
    FlightData.from_amadeus_offer
      ⟨some ⟨some (9999/100), some "EUR"⟩,
        [⟨[⟨⟨some "CDG", some "PAR", some "2025-06-01T10:00"⟩,
             ⟨some "LHR", none, some "2025-06-01T12:00"⟩⟩,
           ⟨⟨some "LHR", none, some "2025-06-01T14:00"⟩,
             ⟨some "JFK", some "NYC", some "2025-06-01T20:00"⟩⟩]⟩]⟩
      = .ok { price := 9999/100, currency := "EUR", origin_city := "PAR",
              origin_airport := "CDG", destination_city := "NYC",
              destination_airport := "JFK", out_date := "2025-06-01",
              return_date := "2025-06-01", stops := 1, is_direct := false,
              via_city := some "LHR" } := by
  constructor
  · intro p rest s0 restSegs
    refine ⟨_, rfl, ?_, ?_, ?_⟩
    · simp [FlightData.from_amadeus_offer]
    · rfl
    · simp [FlightData.from_amadeus_offer]
  · rfl

/-- C1: if the first-phase query (non-stop, `max=1`) yields a valid offer,
`search_cheapest_flight` returns it without consulting the second-phase
indirect query: any two APIs agreeing on the direct query give that same
result, whatever the indirect query would return. -/
theorem direct_offer_short_circuits (api api2 : OfferQuery → List RawOffer)
    (f : FlightData) (hAgree : api2 ⟨true, 1⟩ = api ⟨true, 1⟩)
    (hDirect : fetchBestOffer (api ⟨true, 1⟩) none = .ok (some f)) :
    search_cheapest_flight api2 = .ok (some f) := by
  unfold search_cheapest_flight
  rw [hAgree, hDirect]

/-- A non-stop offer at price 500 for the C1 witness. -/
def c1DirectOffer : RawOffer :=
  ⟨some ⟨some 500, some "EUR"⟩,
    [⟨[⟨⟨some "CDG", none, some "2025-06-01T10:00"⟩,
         ⟨some "JFK", none, some "2025-06-01T18:00"⟩⟩]⟩]⟩

/-- A cheaper one-stop offer at price 100 for the C1 witness. -/
def c1CheapOffer : RawOffer :=
  ⟨some ⟨some 100, some "EUR"⟩,
    [⟨[⟨⟨some "CDG", none, some "2025-06-02T08:00"⟩,
         ⟨some "AMS", none, some "2025-06-02T09:30"⟩⟩,
       ⟨⟨some "AMS", none, some "2025-06-02T11:00"⟩,
         ⟨some "JFK", none, some "2025-06-02T14:00"⟩⟩]⟩]⟩

/-- An API returning the 500 non-stop offer to the direct query and the
cheaper 100 indirect offer to every other query. -/
def c1Api : OfferQuery → List RawOffer := fun q =>
  if q.nonStop then [c1DirectOffer] else [c1CheapOffer]

/-- The normalized form of `c1DirectOffer`. -/
def c1DirectFlight : FlightData :=
  ⟨500, "EUR", "CDG", "CDG", "JFK", "JFK", "2025-06-01", "2025-06-01", 0, true, none⟩

/-- The normalized form of `c1CheapOffer`. -/
def c1CheapFlight : FlightData :=
  ⟨100, "EUR", "CDG", "CDG", "JFK", "JFK", "2025-06-02", "2025-06-02", 1, false, some "AMS"⟩

/-- Witness for C1: the direct phase yields the 500 offer, the search
returns it, and yet the indirect phase would have offered a strictly
cheaper flight. -/
theorem direct_offer_short_circuits_witness :
    fetchBestOffer (c1Api ⟨true, 1⟩) none = .ok (some c1DirectFlight)
    ∧ search_cheapest_flight c1Api = .ok (some c1DirectFlight)
    ∧ fetchBestOffer (c1Api ⟨false, MAX_INDIRECT_OFFERS⟩) (some 2)
        = .ok (some c1CheapFlight)
    ∧ c1CheapFlight.price < c1DirectFlight.price :=
  ⟨rfl, direct_offer_short_circuits c1Api c1Api c1DirectFlight rfl rfl, rfl,
    by norm_num [c1CheapFlight, c1DirectFlight]⟩

/-- C2: in the indirect phase (`max_stops = 2`), when every raw offer
normalizes, the result is exactly the minimum-price flight among the
normalized offers with at most 2 stops: offers with more than 2 stops are
excluded even if cheapest, `none` is returned when no offer survives, and
the returned flight is a survivor no survivor undercuts. -/
theorem indirect_phase_filter_min (offers : List RawOffer)
    (flights : List FlightData)
    (h : offers.mapM FlightData.from_amadeus_offer = Except.ok flights) :
    fetchBestOffer offers (some 2)
        = .ok (minByPrice (flights.filter (fun f => f.stops ≤ 2)))
    ∧ (∀ f ∈ flights.filter (fun f => f.stops ≤ 2), f.stops ≤ 2)
    ∧ (flights.filter (fun f => f.stops ≤ 2) = [] →
        fetchBestOffer offers (some 2) = .ok none)
    ∧ ∀ f, minByPrice (flights.filter (fun f => f.stops ≤ 2)) = some f →
        f ∈ flights.filter (fun f => f.stops ≤ 2)
        ∧ ∀ g ∈ flights.filter (fun f => f.stops ≤ 2), f.price ≤ g.price := by
  have hc := collectValid_eq_filter 2 offers flights h
  have hmain : fetchBestOffer offers (some 2)
      = .ok (minByPrice (flights.filter (fun f => f.stops ≤ 2))) := by
    by_cases ho : offers = []
    · subst ho
      simp only [List.mapM_nil, pure, Except.pure, Except.ok.injEq] at h
      subst h
      rfl
    · rw [fetchBestOffer, if_neg ho, hc]
      by_cases hs : flights.filter (fun f => f.stops ≤ 2) = []
      · rw [hs]; rfl
      · dsimp only
        rw [if_neg hs]
  refine ⟨hmain, ?_, ?_, ?_⟩
  · intro f hf
    have := List.of_mem_filter hf
    simpa using this
  · intro hs
    rw [hmain, hs]; rfl
  · intro f hf
    rw [minByPrice_eq_argmin] at hf
    exact ⟨List.argmin_mem hf, fun g hg => List.le_of_mem_argmin hg hf⟩

/-- A three-stop offer at price 90: the cheapest raw offer, excluded by
the stop ceiling. -/
def c2Offer90 : RawOffer :=
  ⟨some ⟨some 90, some "EUR"⟩,
    [⟨[⟨⟨some "AAA", none, some "2025-07-01T06:00"⟩,
         ⟨some "BBB", none, some "2025-07-01T08:00"⟩⟩,
       ⟨⟨some "BBB", none, some "2025-07-01T09:00"⟩,
         ⟨some "CCC", none, some "2025-07-01T11:00"⟩⟩,
       ⟨⟨some "CCC", none, some "2025-07-01T12:00"⟩,
         ⟨some "DDD", none, some "2025-07-01T14:00"⟩⟩,
       ⟨⟨some "DDD", none, some "2025-07-01T15:00"⟩,
         ⟨some "EEE", none, some "2025-07-01T17:00"⟩⟩]⟩]⟩

/-- A one-stop offer at price 200. -/
def c2Offer200 : RawOffer :=
  ⟨some ⟨some 200, some "EUR"⟩,
    [⟨[⟨⟨some "AAA", none, some "2025-07-01T06:00"⟩,
         ⟨some "BBB", none, some "2025-07-01T08:00"⟩⟩,
       ⟨⟨some "BBB", none, some "2025-07-01T09:00"⟩,
         ⟨some "EEE", none, some "2025-07-01T12:00"⟩⟩]⟩]⟩

/-- A one-stop offer at price 150: the expected selection. -/
def c2Offer150 : RawOffer :=
  ⟨some ⟨some 150, some "EUR"⟩,
    [⟨[⟨⟨some "AAA", none, some "2025-07-01T07:00"⟩,
         ⟨some "CCC", none, some "2025-07-01T09:00"⟩⟩,
       ⟨⟨some "CCC", none, some "2025-07-01T10:00"⟩,
         ⟨some "EEE", none, some "2025-07-01T13:00"⟩⟩]⟩]⟩

/-- Normalized `c2Offer90`. -/
def c2Flight90 : FlightData :=
  ⟨90, "EUR", "AAA", "AAA", "EEE", "EEE", "2025-07-01", "2025-07-01", 3, false, some "BBB"⟩

/-- Normalized `c2Offer200`. -/
def c2Flight200 : FlightData :=
  ⟨200, "EUR", "AAA", "AAA", "EEE", "EEE", "2025-07-01", "2025-07-01", 1, false, some "BBB"⟩

/-- Normalized `c2Offer150`. -/
def c2Flight150 : FlightData :=
  ⟨150, "EUR", "AAA", "AAA", "EEE", "EEE", "2025-07-01", "2025-07-01", 1, false, some "CCC"⟩

/-- Witness for C2: with a cheapest 3-stop offer at 90 and two ≤2-stop
offers at 200 and 150, the indirect phase returns the 150 offer. -/
theorem indirect_phase_filter_min_witness :
    fetchBestOffer [c2Offer90, c2Offer200, c2Offer150] (some 2)
      = .ok (some c2Flight150) := by
  have h := (indirect_phase_filter_min [c2Offer90, c2Offer200, c2Offer150]
    [c2Flight90, c2Flight200, c2Flight150] rfl).1
  rw [h]; rfl

/-- C10: the indirect-phase `min` call returns, among the surviving
flights, the earliest one attaining the minimum price: the result is a
member, its price is a lower bound, and any survivor matching its price
occurs no earlier in the list. (Selection is a function of the list, so
two runs over the same list agree by definition.) -/
theorem min_selection_earliest_tie (flights : List FlightData) (f : FlightData)
    (h : minByPrice flights = some f) :
    f ∈ flights ∧ (∀ g ∈ flights, f.price ≤ g.price)
    ∧ ∀ g ∈ flights, g.price ≤ f.price →
        flights.indexOf f ≤ flights.indexOf g := by
  rw [minByPrice_eq_argmin, List.argmin_eq_some_iff] at h
  exact h

/-- First of two equal-price flights for the C10 witness. -/
def c10FlightA : FlightData :=
  ⟨150, "EUR", "AAA", "AAA", "EEE", "EEE", "2025-07-01", "2025-07-01", 1, false, some "BBB"⟩

/-- Second of two equal-price flights for the C10 witness. -/
def c10FlightB : FlightData :=
  ⟨150, "EUR", "AAA", "AAA", "FFF", "FFF", "2025-07-02", "2025-07-02", 1, false, some "CCC"⟩

/-- Witness for C10: over two distinct flights sharing the minimum price,
the `min` call selects the first and the index bound holds. -/
theorem min_selection_earliest_tie_witness :
    c10FlightA ∈ [c10FlightA, c10FlightB]
    ∧ (∀ g ∈ [c10FlightA, c10FlightB], c10FlightA.price ≤ g.price)
    ∧ ∀ g ∈ [c10FlightA, c10FlightB], g.price ≤ c10FlightA.price →
        [c10FlightA, c10FlightB].indexOf c10FlightA
          ≤ [c10FlightA, c10FlightB].indexOf g :=
  min_selection_earliest_tie [c10FlightA, c10FlightB] c10FlightA rfl

/-- C5: the token-cache guard refreshes exactly when the token is absent
(or empty, which Python treats the same) or the current instant has
reached the stored safety-margin expiry; after a fetch at instant `t` with
`expires_in = 3600`, calls strictly before `t + 3590` reuse the token and
calls at or after `t + 3590` refetch. -/
theorem token_refresh_iff (st : TokenState) (now t : ℚ) (tok : String)
    (htok : tok ≠ "") :
    (needsRefresh st now = true
      ↔ (strTruthy st.token = false ∨ st.token_expires_at ≤ now))
    ∧ (needsRefresh (storeToken t tok 3600) now = false ↔ now < t + 3590) := by
  constructor
  · cases h : strTruthy st.token
    · simp [needsRefresh, h]
    · simp [needsRefresh, h, not_lt]
  · have harith : t + 3600 - 10 = t + 3590 := by ring
    simp [needsRefresh, storeToken, strTruthy, htok, harith]

/-- Witness for C5 at the initial state and a concrete fetch instant. -/
theorem token_refresh_iff_witness :
    (needsRefresh ⟨none, 0⟩ 0 = true
      ↔ (strTruthy (none : Option String) = false ∨ (0:ℚ) ≤ 0))
    ∧ (needsRefresh (storeToken 0 "tok" 3600) 0 = false ↔ (0:ℚ) < 0 + 3590) :=
  token_refresh_iff ⟨none, 0⟩ 0 0 "tok" (by decide)

/-- Lookup for the C7 scenario: fails (transport error) for "Atlantis",
resolves other cities. -/
def c7Lookup : String → Except Unit (Option String) := fun city =>
  if city = "Atlantis" then .error ()
  else if city = "Paris" then .ok (some "par") else .ok (some "tyo")

/-- Persistence for the C7 scenario: always succeeds. -/
def c7Update : Int → String → Except Unit Unit := fun _ _ => .ok ()

/-- C7 scenario row 1: missing IATA code, resolvable city. -/
def c7Row1 : SheetRow := ⟨some 1, some "Paris", none, none, none⟩

/-- C7 scenario row 2: missing IATA code, lookup fails. -/
def c7Row2 : SheetRow := ⟨some 2, some "Atlantis", none, none, none⟩

/-- C7 scenario row 3: missing IATA code, resolvable city. -/
def c7Row3 : SheetRow := ⟨some 3, some "Tokyo", none, none, none⟩

/-- C7: the IATA backfill processes every row: the count over a
concatenation splits (one row's failure cannot abort the rest), the
returned count is exactly the number of rows whose update succeeded, rows
without a resolvable city or id contribute nothing and raise nothing, and
in the concrete 3-row scenario where row 2's lookup fails, rows 1 and 3
are still updated and the reported count is 2. -/
theorem backfill_partial_failure :
    (∀ (lookup : String → Except Unit (Option String))
      (update : Int → String → Except Unit Unit) (xs ys : List SheetRow),
      sync_missing_iata_codes lookup update (xs ++ ys)
        = sync_missing_iata_codes lookup update xs
          + sync_missing_iata_codes lookup update ys)
    ∧ (∀ lookup update rows,
      sync_missing_iata_codes lookup update rows
        = rows.countP (fun r => processRow lookup update r = 1))
    ∧ (∀ lookup update (row : SheetRow),
        pyStrip ((pyOrOpt row.city row.destination).getD "") = ""
          ∨ intTruthy row.id = false →
        processRow lookup update row = 0)
    ∧ sync_missing_iata_codes c7Lookup c7Update [c7Row1, c7Row2, c7Row3] = 2
    ∧ processRow c7Lookup c7Update c7Row2 = 0
    ∧ processRow c7Lookup c7Update c7Row1 = 1
    ∧ processRow c7Lookup c7Update c7Row3 = 1 := by
  have hzo : ∀ lookup update (row : SheetRow),
      processRow lookup update row = 0 ∨ processRow lookup update row = 1 := by
    intro lookup update row
    unfold processRow
    dsimp only
    split
    · exact Or.inl rfl
    split
    · exact Or.inl rfl
    split
    · exact Or.inl rfl
    split
    · exact Or.inl rfl
    split
    · exact Or.inl rfl
    · exact Or.inr rfl
  refine ⟨?_, ?_, ?_, rfl, rfl, rfl, rfl⟩
  · intro lookup update xs ys
    induction xs with
    | nil => simp [sync_missing_iata_codes]
    | cons r rest ih =>
      simp [sync_missing_iata_codes, ih, Nat.add_assoc]
  · intro lookup update rows
    induction rows with
    | nil => rfl
    | cons r rest ih =>
      rw [sync_missing_iata_codes, ih, List.countP_cons]
      rcases hzo lookup update r with h | h <;> simp [h, Nat.add_comm]
  · intro lookup update row h
    have hcond : (pyStrip ((pyOrOpt row.city row.destination).getD "") = ""
        || !intTruthy row.id) = true := by
      rcases h with h | h <;> simp [h]
    unfold processRow
    dsimp only
    split <;> simp [hcond]

/-- Witness for C7: a row with no city and no destination is skipped with
contribution 0. -/
theorem backfill_partial_failure_witness :
    processRow c7Lookup c7Update ⟨some 5, none, none, none, none⟩ = 0 :=
  backfill_partial_failure.2.2.1 c7Lookup c7Update _ (Or.inl rfl)

/-- `f"{99.99:.2f}" = "99.99"`. -/
theorem format2_9999_div_100 : format2 (9999/100) = "99.99" := by
  rw [format2, show round ((9999/100 : ℚ) * 100) = 9999 from by norm_num [round_eq]]
  rfl

/-- `f"{120.00:.2f}" = "120.00"`. -/
theorem format2_120 : format2 120 = "120.00" := by
  rw [format2, show round ((120 : ℚ) * 100) = 12000 from by norm_num [round_eq]]
  rfl

/-- C8: the deal-alert text for price 99.99 EUR against target 120.00 with
0 stops is exactly the base message — both prices rendered to two
decimals, no stop-count suffix; with 1 stop via "LHR" the message ends
with the stop/via clause " 1 escale(s) via LHR." mentioning "LHR". -/
theorem deal_alert_text :
    (∀ (oc oa dc da od rd : String) (v : Option String),
      composeDealBody ⟨9999/100, "EUR", oc, oa, dc, da, od, rd, 0, true, v⟩ 120
          = "Bon plan vol ✈️ " ++ oc ++ "-" ++ dc
            ++ " à 99.99 EUR (cible 120.00). Aller: " ++ od ++ ", retour: "
            ++ rd ++ "."
      ∧ (∃ l r, composeDealBody ⟨9999/100, "EUR", oc, oa, dc, da, od, rd, 0, true, v⟩ 120
          = l ++ "99.99" ++ r)
      ∧ (∃ l r, composeDealBody ⟨9999/100, "EUR", oc, oa, dc, da, od, rd, 0, true, v⟩ 120
          = l ++ "120.00" ++ r))
    ∧ ∀ (oc oa dc da od rd : String),
      (∃ l, composeDealBody ⟨9999/100, "EUR", oc, oa, dc, da, od, rd, 1, false, some "LHR"⟩ 120
          = l ++ " 1 escale(s) via LHR.")
      ∧ ∃ l r, composeDealBody ⟨9999/100, "EUR", oc, oa, dc, da, od, rd, 1, false, some "LHR"⟩ 120
          = l ++ "LHR" ++ r := by
  constructor
  · intro oc oa dc da od rd v
    refine ⟨?_, ?_, ?_⟩
    · simp only [composeDealBody, format2_9999_div_100, format2_120]
      simp only [String.append_assoc]
      rfl
    · refine ⟨"Bon plan vol ✈️ " ++ oc ++ "-" ++ dc ++ " à ",
        " EUR (cible 120.00). Aller: " ++ od ++ ", retour: " ++ rd ++ ".", ?_⟩
      simp only [composeDealBody, format2_9999_div_100, format2_120]
      simp only [String.append_assoc]
      rfl
    · refine ⟨"Bon plan vol ✈️ " ++ oc ++ "-" ++ dc ++ " à 99.99 EUR (cible ",
        "). Aller: " ++ od ++ ", retour: " ++ rd ++ ".", ?_⟩
      simp only [composeDealBody, format2_9999_div_100, format2_120]
      simp only [String.append_assoc]
      rfl
  · intro oc oa dc da od rd
    constructor
    · refine ⟨"Bon plan vol ✈️ " ++ oc ++ "-" ++ dc
        ++ " à 99.99 EUR (cible 120.00). Aller: " ++ od ++ ", retour: "
        ++ rd ++ ".", ?_⟩
      simp only [composeDealBody, format2_9999_div_100, format2_120, strTruthy]
      simp only [String.append_assoc]
      rfl
    · refine ⟨"Bon plan vol ✈️ " ++ oc ++ "-" ++ dc
        ++ " à 99.99 EUR (cible 120.00). Aller: " ++ od ++ ", retour: "
        ++ rd ++ ". 1 escale(s) via ", ".", ?_⟩
      simp only [composeDealBody, format2_9999_div_100, format2_120, strTruthy]
      simp only [String.append_assoc]
      rfl

/-- Email configuration for the C6 scenarios: credentials present, one
valid recipient, so an email send would be viable. -/
def c6Cfg : EmailConfig := ⟨some "sender@example.com", some "pw", ["client@example.com"]⟩

/-- A normalized flight for the C6 scenarios. -/
def c6Flight : FlightData :=
  ⟨100, "EUR", "PAR", "PAR", "NYC", "NYC", "2025-06-01", "2025-06-01", 0, true, none⟩

/-- C6 counterexample: when the SMS send fails, `send_deal_alert` raises
the SMS transport error before `send_email_alert` is ever entered — the
email channel is NOT attempted, even though the email configuration was
viable (a standalone email send would have reached 1 recipient). This
refutes "both channels are attempted even if one of them fails". -/
theorem send_deal_alert_sms_failure_skips_email :
    (send_deal_alert c6Cfg c6Flight 120 (.error "twilio down") (.ok ())).smsAttempted
        = true
    ∧ (send_deal_alert c6Cfg c6Flight 120 (.error "twilio down") (.ok ())).emailAttempted
        = false
    ∧ send_email_alert c6Cfg none (.ok ()) = .ok 1 :=
  ⟨rfl, rfl, rfl⟩

/-- C6 amended: the SMS is attempted first and unconditionally; the email
is attempted exactly when the SMS call succeeded (an SMS failure
propagates as a plain transport error and skips the email); after a
successful SMS, an email failure is raised as the distinct mail-transport
error kind (`NotificationError`) rather than swallowed, and an SMTP
session failure with viable credentials and recipients produces exactly
that wrapped message. -/
theorem send_deal_alert_ordering (cfg : EmailConfig) (flight : FlightData)
    (t : ℚ) (sms : Except String (Option String)) (smtp : Except String Unit) :
    (send_deal_alert cfg flight t sms smtp).smsAttempted = true
    ∧ (∀ e, sms = .error e →
        send_deal_alert cfg flight t sms smtp
          = ⟨true, false, .error (.smsTransport e)⟩)
    ∧ (∀ sid, sms = .ok sid →
        (send_deal_alert cfg flight t sms smtp).emailAttempted = true
        ∧ (∀ e, send_email_alert cfg none smtp = .error e →
            (send_deal_alert cfg flight t sms smtp).outcome
              = .error (.mailTransport e))
        ∧ ∀ n, send_email_alert cfg none smtp = .ok n →
            (send_deal_alert cfg flight t sms smtp).outcome = .ok ⟨sid, n⟩)
    ∧ ∀ exc, (strTruthy cfg.email_sender && strTruthy cfg.email_password) = true →
        (cfg.customer_emails.map pyStrip).filter (fun s => s ≠ "") ≠ [] →
        send_email_alert cfg none (.error exc)
          = .error ("Impossible d'envoyer l'e-mail: " ++ exc) := by
  refine ⟨?_, ?_, ?_, ?_⟩
  · cases sms with
    | error e => rfl
    | ok sid =>
      rw [send_deal_alert]
      cases send_email_alert cfg none smtp <;> rfl
  · intro e he
    subst he
    rfl
  · intro sid hs
    subst hs
    rw [send_deal_alert]
    cases hmail : send_email_alert cfg none smtp with
    | error e =>
      refine ⟨rfl, ?_, ?_⟩
      · intro e2 he2
        cases he2
        rfl
      · intro n hn
        cases hn
    | ok n =>
      refine ⟨rfl, ?_, ?_⟩
      · intro e2 he2
        cases he2
      · intro n2 hn2
        cases hn2
        rfl
  · intro exc hcred hrec
    unfold send_email_alert
    rw [if_neg (show ¬((!(strTruthy cfg.email_sender && strTruthy cfg.email_password)) = true)
        from by rw [hcred]; decide)]
    dsimp only
    rw [if_neg hrec]

/-- Witness for C6 (amended): with the concrete configuration, a failing
SMS yields exactly the SMS-transport trace, and after a successful SMS a
failing SMTP session surfaces as the wrapped mail-transport error. -/
theorem send_deal_alert_ordering_witness :
    send_deal_alert c6Cfg c6Flight 120 (.error "twilio boom") (.ok ())
        = ⟨true, false, .error (.smsTransport "twilio boom")⟩
    ∧ (send_deal_alert c6Cfg c6Flight 120 (.ok (some "SID")) (.error "down")).outcome
        = .error (.mailTransport "Impossible d'envoyer l'e-mail: down")
    ∧ send_email_alert c6Cfg none (.error "down")
        = .error ("Impossible d'envoyer l'e-mail: " ++ "down") := by
  refine ⟨?_, ?_, ?_⟩
  · exact (send_deal_alert_ordering c6Cfg c6Flight 120 (.error "twilio boom")
      (.ok ())).2.1 "twilio boom" rfl
  · exact ((send_deal_alert_ordering c6Cfg c6Flight 120 (.ok (some "SID"))
      (.error "down")).2.2.1 (some "SID") rfl).2.1 _ rfl
  · exact (send_deal_alert_ordering c6Cfg c6Flight 120 (.ok (some "SID"))
      (.error "down")).2.2.2 "down" rfl (by decide)

end FlightDeal
